import Mathlib

/-!
Verification of the announcement-looper program (`src/main.py`).

The program is a single class `Looper` that, in an infinite loop:
computes a wait aligned to interval boundaries from the wall clock,
sleeps, optionally checks whether the channel is online, posts the
current announcement and advances a rotation index on success.

We embed the arithmetic of `send_announcement` over ℚ (Python floats
idealized as exact rationals) and the control flow of one cycle as a
pure function over an explicit environment describing the outcomes of
the two HTTP requests.
-/

namespace LocalGremBot

/-- Python's `%` on floats with a positive divisor: floored modulo,
`a % b = a - b * ⌊a / b⌋`. -/
def qmod (a b : ℚ) : ℚ := a - b * ⌊a / b⌋

/-- A wall-clock instant as read from `datetime.datetime.now()`; only the
fields the program reads are kept, plus `hour` which the program's wait
formula notably does not read. -/
structure DateTime where
  day : ℕ
  hour : ℕ
  minute : ℕ
  second : ℕ
  microsecond : ℕ
  deriving DecidableEq, Repr

/-- Embeds `datetime.timedelta(days=now.day, minutes=now.minute,
seconds=now.second, microseconds=now.microsecond) /
datetime.timedelta(seconds=1)`:
total seconds of the day/minute/second/microsecond components.
The `hour` field is not included, mirroring the source. -/
def elapsedSeconds (t : DateTime) : ℚ :=
  t.day * 86400 + t.minute * 60 + t.second + t.microsecond / 1000000

/-- Embeds `seconds_until_announcement = self.interval - (…) %
self.interval` from `send_announcement`.  Python's `%` binds tighter than `-`, so there
is no outer reduction modulo the interval. -/
def waitSeconds (interval : ℚ) (t : DateTime) : ℚ :=
  interval - qmod (elapsedSeconds t) interval

/-- Modelled from the spec: the spec's wait-time formula
`(interval - elapsed mod interval) mod interval`, with the extra outer
modulo that the source does not perform. -/
def specWaitFormula (interval : ℚ) (t : DateTime) : ℚ :=
  qmod (interval - qmod (elapsedSeconds t) interval) interval

/-- Modelled from the spec: "seconds since the start of the current hour",
i.e. only the minute/second/microsecond components. -/
def specElapsedInHour (t : DateTime) : ℚ :=
  t.minute * 60 + t.second + t.microsecond / 1000000

lemma qmod_nonneg (a : ℚ) {b : ℚ} (hb : 0 < b) : 0 ≤ qmod a b := by
  unfold qmod
  have h1 : (⌊a / b⌋ : ℚ) ≤ a / b := Int.floor_le _
  have h2 : b * (⌊a / b⌋ : ℚ) ≤ b * (a / b) :=
    mul_le_mul_of_nonneg_left h1 (le_of_lt hb)
  have h3 : b * (a / b) = a := by
    field_simp
  linarith

lemma qmod_lt (a : ℚ) {b : ℚ} (hb : 0 < b) : qmod a b < b := by
  unfold qmod
  have h1 : a / b < (⌊a / b⌋ : ℚ) + 1 := Int.lt_floor_add_one _
  have h2 : b * (a / b) < b * ((⌊a / b⌋ : ℚ) + 1) :=
    (mul_lt_mul_left hb).2 h1
  have h3 : b * (a / b) = a := by
    field_simp
  nlinarith

lemma qmod_mul_int {b : ℚ} (hb : b ≠ 0) (k : ℤ) : qmod (b * k) b = 0 := by
  unfold qmod
  have h1 : b * (k : ℚ) / b = (k : ℚ) := by
    field_simp
  rw [h1, Int.floor_intCast, sub_self]

lemma waitSeconds_pos {interval : ℚ} (hI : 0 < interval) (t : DateTime) :
    0 < waitSeconds interval t := by
  unfold waitSeconds
  have := qmod_lt (elapsedSeconds t) hI
  linarith

lemma waitSeconds_le {interval : ℚ} (hI : 0 < interval) (t : DateTime) :
    waitSeconds interval t ≤ interval := by
  unfold waitSeconds
  have := qmod_nonneg (elapsedSeconds t) hI
  linarith

lemma elapsed_add_wait {interval : ℚ} (hI : 0 < interval) (t : DateTime) :
    qmod (elapsedSeconds t + waitSeconds interval t) interval = 0 := by
  have hne : interval ≠ 0 := ne_of_gt hI
  have key : elapsedSeconds t + waitSeconds interval t
      = interval * ((⌊elapsedSeconds t / interval⌋ + 1 : ℤ) : ℚ) := by
    unfold waitSeconds qmod
    push_cast
    ring
  rw [key, qmod_mul_int hne]

/-- The exceptions a request can raise.  `requests.exceptions.Timeout` is
the only one the program catches; the others stand for JSON decoding
failures (`response.json()` raising), a missing `data` key (`KeyError`),
and any other transport fault (e.g. `ConnectionError`). -/
inductive Exn where
  | timeout
  | jsonDecodeError
  | keyError
  | connectionError
  deriving DecidableEq, Repr

/-- The body of the `GET streams` response, as seen by
`response.json()['data']`: the JSON may fail to parse, may lack a
`data` key, or holds a `data` list of some length. -/
inductive StreamsBody where
  | notJson
  | missingData
  | dataList (n : ℕ)
  deriving DecidableEq, Repr

/-- A response to the `GET streams` request. -/
structure StreamsResponse where
  status_code : ℕ
  body : StreamsBody
  deriving DecidableEq, Repr

/-- The mutable/configured state of a `Looper` instance; `index` is the
only field ever written after `__init__`. -/
structure Looper where
  announcements : List String
  ignore_offline : Bool
  broadcaster_id : String
  moderator_id : String
  interval : ℚ
  index : ℕ
  deriving DecidableEq, Repr

/-- Embeds `Looper.__init__`: stores the configuration and sets `index = 0`. -/
def Looper.init (announcements : List String) (ignore_offline : Bool)
    (broadcaster_id moderator_id : String) (interval : ℚ) : Looper :=
  { announcements := announcements
    ignore_offline := ignore_offline
    broadcaster_id := broadcaster_id
    moderator_id := moderator_id
    interval := interval
    index := 0 }

/-- Embeds `Looper.check_status_code`: success iff the response's status code
equals the expected one (the mismatch branch only logs). -/
def check_status_code (status expected : ℕ) : Bool :=
  status == expected

/-- Embeds `Looper.get_announcement`: `self.announcements[self.index]`. -/
def Looper.get_announcement (s : Looper) : String :=
  s.announcements.getD s.index default

/-- The outcomes the network would deliver during one cycle: the wall
clock at entry, the result of the `GET streams` request were it issued
(an exception or a response), and likewise the status code of the
`POST chat/announcements` request. -/
structure CycleEnv where
  now : DateTime
  streamsResp : Except Exn StreamsResponse
  postResp : Except Exn ℕ
  deriving Repr

/-- Embeds `Looper.get_online`: issue the GET; on HTTP 200 return the truthiness
of `response.json()['data']` (raising if the body is not JSON or lacks
the key), on any other status return false (short-circuit of `and`). -/
def get_online (resp : Except Exn StreamsResponse) : Except Exn Bool :=
  match resp with
  | .error e => .error e
  | .ok r =>
    if check_status_code r.status_code 200 then
      match r.body with
      | .notJson => .error .jsonDecodeError
      | .missingData => .error .keyError
      | .dataList n => .ok (decide (n ≠ 0))
    else
      .ok false

/-- Embeds `Looper.post_announce`: issue the POST and compare the status code
against 204. -/
def post_announce (resp : Except Exn ℕ) : Except Exn Bool :=
  match resp with
  | .error e => .error e
  | .ok status => .ok (check_status_code status 204)

/-- Embeds `Looper.try_request`: run the request, catching exactly
`requests.exceptions.Timeout` (returning failure); every other
exception propagates. -/
def try_request (r : Except Exn Bool) : Except Exn Bool :=
  match r with
  | .error .timeout => .ok false
  | .error e => .error e
  | .ok b => .ok b

/-- Observable record of what one cycle did: how long it slept, whether
it issued the status request, and the message it passed to the POST
request when it issued one. -/
structure Trace where
  slept : ℚ
  queriedStatus : Bool
  postedMessage : Option String
  deriving DecidableEq, Repr

/-- The posting block of `send_announcement` (source lines 80–88): log
and send the current announcement, and advance `index` modulo the list
length iff the post succeeded. -/
def post_phase (s : Looper) (env : CycleEnv) (wait : ℚ) :
    Except Exn Looper × Trace :=
  match try_request (post_announce env.postResp) with
  | .error e =>
    (.error e, ⟨wait, s.ignore_offline, some s.get_announcement⟩)
  | .ok true =>
    (.ok { s with index := (s.index + 1) % s.announcements.length },
      ⟨wait, s.ignore_offline, some s.get_announcement⟩)
  | .ok false =>
    (.ok s, ⟨wait, s.ignore_offline, some s.get_announcement⟩)

/-- Embeds `Looper.send_announcement`, one cycle: compute the wait, sleep,
optionally gate on the online check, then run the posting block.
Returns the resulting state (or the propagating exception) with the
cycle's trace. -/
def send_announcement (s : Looper) (env : CycleEnv) :
    Except Exn Looper × Trace :=
  if s.ignore_offline then
    match try_request (get_online env.streamsResp) with
    | .error e => (.error e, ⟨waitSeconds s.interval env.now, true, none⟩)
    | .ok false => (.ok s, ⟨waitSeconds s.interval env.now, true, none⟩)
    | .ok true => post_phase s env (waitSeconds s.interval env.now)
  else
    post_phase s env (waitSeconds s.interval env.now)

/-- Embeds `Looper.run` cut to a finite schedule of cycle environments: fold
`send_announcement`, stopping when an exception propagates out of a
cycle (the `while True` loop has no handler). -/
def run_for (s : Looper) : List CycleEnv → Except Exn Looper
  | [] => .ok s
  | env :: rest =>
    match (send_announcement s env).1 with
    | .error e => .error e
    | .ok s' => run_for s' rest

/-! ### Concrete fixtures -/

/-- A valid wall-clock instant: first day of the month, midnight. -/
def time0 : DateTime := ⟨1, 0, 0, 0, 0⟩

/-- A response confirming the channel online: HTTP 200, one stream. -/
def onlineResp : StreamsResponse := ⟨200, .dataList 1⟩

/-- An environment in which both requests fully succeed. -/
def successEnv : CycleEnv := ⟨time0, .ok onlineResp, .ok 204⟩

/-- The three sample messages. -/
def msgs3 : List String := ["A", "B", "C"]

/-- A sample broadcaster identifier. -/
def bidS : String := "bid"

/-- A sample moderator identifier. -/
def midS : String := "mid"

/-- A three-message looper with a 300-second interval. -/
def looperA (io : Bool) : Looper :=
  Looper.init msgs3 io bidS midS 300

/-- A one-message looper with a 60-second interval. -/
def looper60 : Looper := Looper.init (msgs3.take 1) false bidS midS 60

/-! ### Helper lemmas about one cycle -/

lemma post_phase_trace (s : Looper) (env : CycleEnv) (w : ℚ) :
    (post_phase s env w).2
      = ⟨w, s.ignore_offline, some s.get_announcement⟩ := by
  unfold post_phase
  split <;> rfl

lemma post_phase_success (s : Looper) (env : CycleEnv) (w : ℚ)
    (h : try_request (post_announce env.postResp) = .ok true) :
    post_phase s env w
      = (.ok { s with index := (s.index + 1) % s.announcements.length },
          ⟨w, s.ignore_offline, some s.get_announcement⟩) := by
  unfold post_phase
  rw [h]

lemma post_phase_failure (s : Looper) (env : CycleEnv) (w : ℚ)
    (h : try_request (post_announce env.postResp) = .ok false) :
    post_phase s env w
      = (.ok s, ⟨w, s.ignore_offline, some s.get_announcement⟩) := by
  unfold post_phase
  rw [h]

lemma post_phase_error (s : Looper) (env : CycleEnv) (w : ℚ) (e : Exn)
    (h : try_request (post_announce env.postResp) = .error e) :
    post_phase s env w
      = (.error e, ⟨w, s.ignore_offline, some s.get_announcement⟩) := by
  unfold post_phase
  rw [h]

lemma send_gate_false (s : Looper) (env : CycleEnv)
    (h : s.ignore_offline = false) :
    send_announcement s env
      = post_phase s env (waitSeconds s.interval env.now) := by
  unfold send_announcement
  rw [h]
  simp

lemma send_gate_online (s : Looper) (env : CycleEnv)
    (h : s.ignore_offline = true)
    (hg : try_request (get_online env.streamsResp) = .ok true) :
    send_announcement s env
      = post_phase s env (waitSeconds s.interval env.now) := by
  unfold send_announcement
  rw [h, hg]
  simp

lemma send_gate_offline (s : Looper) (env : CycleEnv)
    (h : s.ignore_offline = true)
    (hg : try_request (get_online env.streamsResp) = .ok false) :
    send_announcement s env
      = (.ok s, ⟨waitSeconds s.interval env.now, true, none⟩) := by
  unfold send_announcement
  rw [h, hg]
  simp

lemma send_gate_error (s : Looper) (env : CycleEnv) (e : Exn)
    (h : s.ignore_offline = true)
    (hg : try_request (get_online env.streamsResp) = .error e) :
    send_announcement s env
      = (.error e, ⟨waitSeconds s.interval env.now, true, none⟩) := by
  unfold send_announcement
  rw [h, hg]
  simp

lemma send_announcement_slept (s : Looper) (env : CycleEnv) :
    (send_announcement s env).2.slept = waitSeconds s.interval env.now := by
  unfold send_announcement
  split
  · split
    · rfl
    · rfl
    · rw [post_phase_trace]
  · rw [post_phase_trace]

lemma run_for_cons_ok (s s' : Looper) (env : CycleEnv)
    (rest : List CycleEnv) (h : (send_announcement s env).1 = .ok s') :
    run_for s (env :: rest) = run_for s' rest := by
  conv_lhs => rw [run_for]
  rw [h]

lemma run_for_cons_error (s : Looper) (env : CycleEnv) (e : Exn)
    (rest : List CycleEnv) (h : (send_announcement s env).1 = .error e) :
    run_for s (env :: rest) = .error e := by
  unfold run_for
  rw [h]

/-! ### The claims -/

/-- C1: the claim says the slept duration equals
`(interval - elapsed mod interval) mod interval`.  Counterexample: at a
valid instant whose elapsed component total is an exact multiple of the
interval (first of the month, midnight, interval 60), the program
sleeps the full `60` seconds, while the claimed formula yields `0`. -/
theorem wait_formula_counterexample :
    (send_announcement looper60 successEnv).2.slept = 60 ∧
    specWaitFormula looper60.interval successEnv.now = 0 ∧
    (send_announcement looper60 successEnv).2.slept
      ≠ specWaitFormula looper60.interval successEnv.now := by
  have h1 : (send_announcement looper60 successEnv).2.slept = 60 := by
    rw [send_announcement_slept]
    norm_num [looper60, Looper.init, successEnv, time0, waitSeconds, qmod,
      elapsedSeconds]
  have h2 : specWaitFormula looper60.interval successEnv.now = 0 := by
    norm_num [looper60, Looper.init, successEnv, time0, specWaitFormula,
      waitSeconds, qmod, elapsedSeconds]
  refine ⟨h1, h2, ?_⟩
  rw [h1, h2]
  norm_num

/-- C1 (amended): in every call to `send_announcement`, the duration
passed to the sleep equals `interval - (elapsed mod interval)`, with no
outer reduction modulo the interval (Python's `%` binds tighter than
`-`), where `elapsed` totals the day/minute/second/microsecond
components. -/
theorem slept_eq_interval_sub_mod (s : Looper) (env : CycleEnv) :
    (send_announcement s env).2.slept
      = s.interval - qmod (elapsedSeconds env.now) s.interval := by
  rw [send_announcement_slept, waitSeconds]

/-- C2: the claim says `0 ≤ W < I` and
`(elapsed_seconds_in_hour + W) mod I = 0`.  Counterexample: at the
valid instant day 1, 00:00:00.000000, with `I = 60` the computed wait
is `60`, violating `W < I`; and with `I = 7` (which does not divide a
day) the wait is `1` while seconds-in-hour is `0`, so
`(elapsed_in_hour + W) mod I = 1 ≠ 0` — the program's formula includes
the day component, not just the in-hour components. -/
theorem wait_bounds_counterexample :
    ¬ (waitSeconds 60 time0 < 60) ∧
    qmod (specElapsedInHour time0 + waitSeconds 7 time0) 7 ≠ 0 := by
  constructor
  · norm_num [time0, waitSeconds, qmod, elapsedSeconds]
  · norm_num [time0, specElapsedInHour, waitSeconds, qmod, elapsedSeconds]

/-- C2 (amended): for every interval `I > 0` and every wall-clock time,
the wait `W` computed by `send_announcement` satisfies `0 < W ≤ I`, and
`(elapsed + W) mod I = 0` where `elapsed` is the
day/minute/second/microsecond total the program uses (the day component
included, so the alignment is relative to that total, not to the start
of the hour). -/
theorem wait_bounds_amended (s : Looper) (env : CycleEnv)
    (hI : 0 < s.interval) :
    0 < (send_announcement s env).2.slept ∧
    (send_announcement s env).2.slept ≤ s.interval ∧
    qmod (elapsedSeconds env.now + (send_announcement s env).2.slept)
      s.interval = 0 := by
  rw [send_announcement_slept]
  exact ⟨waitSeconds_pos hI _, waitSeconds_le hI _, elapsed_add_wait hI _⟩

/-- Witness for C2 (amended) at interval 300 and the concrete
success-environment instant. -/
theorem wait_bounds_amended_witness :
    0 < (looperA false).interval ∧
    (0 < (send_announcement (looperA false) successEnv).2.slept ∧
     (send_announcement (looperA false) successEnv).2.slept
       ≤ (looperA false).interval ∧
     qmod (elapsedSeconds successEnv.now
         + (send_announcement (looperA false) successEnv).2.slept)
       (looperA false).interval = 0) :=
  ⟨by norm_num [looperA, Looper.init],
   wait_bounds_amended (looperA false) successEnv
     (by norm_num [looperA, Looper.init])⟩

/-- C9: for every interval `I > 0` and every wall-clock time, the
duration slept by a cycle is at most the configured interval. -/
theorem slept_le_interval (s : Looper) (env : CycleEnv)
    (hI : 0 < s.interval) :
    (send_announcement s env).2.slept ≤ s.interval := by
  rw [send_announcement_slept]
  exact waitSeconds_le hI env.now

/-- Witness for C9 at interval 60 and a concrete instant. -/
theorem slept_le_interval_witness :
    0 < looper60.interval ∧
    (send_announcement looper60 successEnv).2.slept
      ≤ looper60.interval :=
  ⟨by norm_num [looper60, Looper.init],
   slept_le_interval looper60 successEnv
     (by norm_num [looper60, Looper.init])⟩

/-- C3: in every cycle, when a post is issued
(`postedMessage.isSome`): the index advances by one modulo the list
length exactly when the post returns the expected success status; on a
failed post (wrong status code or timeout) the state is unchanged, the
message just attempted is `announcements[index]` of that unchanged
state, so the next attempt resends the identical string; and when no
post is issued the cycle either leaves the state unchanged or
propagates an exception, never advancing the index. -/
theorem index_advance_iff_post_success (s : Looper) (env : CycleEnv) :
    (try_request (post_announce env.postResp) = .ok true →
      (send_announcement s env).2.postedMessage.isSome →
      (send_announcement s env).1
        = .ok { s with index := (s.index + 1) % s.announcements.length }) ∧
    (try_request (post_announce env.postResp) = .ok false →
      (send_announcement s env).2.postedMessage.isSome →
      (send_announcement s env).1 = .ok s ∧
      (send_announcement s env).2.postedMessage
        = some s.get_announcement) ∧
    ((send_announcement s env).2.postedMessage = none →
      (send_announcement s env).1 = .ok s ∨
      ∃ e, (send_announcement s env).1 = .error e) := by
  cases hio : s.ignore_offline with
  | false =>
    rw [send_gate_false s env hio]
    refine ⟨fun hp _ => ?_, fun hp _ => ?_, fun hnone => ?_⟩
    · rw [post_phase_success s env _ hp, hio]
    · rw [post_phase_failure s env _ hp]
      exact ⟨rfl, rfl⟩
    · rw [post_phase_trace] at hnone
      simp at hnone
  | true =>
    cases hg : try_request (get_online env.streamsResp) with
    | error e =>
      rw [send_gate_error s env e hio hg]
      refine ⟨fun _ hsome => ?_, fun _ hsome => ?_, fun _ => ?_⟩
      · simp at hsome
      · simp at hsome
      · exact Or.inr ⟨e, rfl⟩
    | ok b =>
      cases b with
      | false =>
        rw [send_gate_offline s env hio hg]
        refine ⟨fun _ hsome => ?_, fun _ hsome => ?_, fun _ => Or.inl rfl⟩
        · simp at hsome
        · simp at hsome
      | true =>
        rw [send_gate_online s env hio hg]
        refine ⟨fun hp _ => ?_, fun hp _ => ?_, fun hnone => ?_⟩
        · rw [post_phase_success s env _ hp, hio]
        · rw [post_phase_failure s env _ hp]
          exact ⟨rfl, rfl⟩
        · rw [post_phase_trace] at hnone
          simp at hnone

/-- Witness for C3: a successful post from the concrete three-message
looper advances the index from 0 to 1. -/
theorem index_advance_iff_post_success_witness :
    (send_announcement (looperA false) successEnv).1
      = .ok { looperA false with
          index := ((looperA false).index + 1)
            % (looperA false).announcements.length } :=
  (index_advance_iff_post_success (looperA false) successEnv).1
    (by rfl) (by rfl)

/-- One successful cycle: the state after `send_announcement` in an
environment where the online check confirms and the post returns 204. -/
def stepSuccess (s : Looper) : Looper :=
  match (send_announcement s successEnv).1 with
  | .ok s' => s'
  | .error _ => s

/-- The state after `n` consecutive successful cycles. -/
def afterSuccesses (s : Looper) : ℕ → Looper
  | 0 => s
  | n + 1 => stepSuccess (afterSuccesses s n)

lemma stepSuccess_eq (s : Looper) :
    stepSuccess s
      = { s with index := (s.index + 1) % s.announcements.length } := by
  obtain ⟨as, io, b, m, I, i⟩ := s
  cases io <;> rfl

lemma stepSuccess_index (s : Looper) :
    (stepSuccess s).index = (s.index + 1) % s.announcements.length := by
  rw [stepSuccess_eq]

lemma init_announcements (as : List String) (io : Bool) (b m : String)
    (I : ℚ) : (Looper.init as io b m I).announcements = as := rfl

lemma afterSuccesses_announcements (s : Looper) (n : ℕ) :
    (afterSuccesses s n).announcements = s.announcements := by
  induction n with
  | zero => rfl
  | succ n ih => rw [afterSuccesses, stepSuccess_eq]; exact ih

/-- C4: for every list length `L > 0` and every `N`, the rotation index
after `N` consecutive successful posts, starting from the freshly
constructed looper (index 0), equals `N mod L`. -/
theorem index_after_n_successes (as : List String) (io : Bool)
    (b m : String) (I : ℚ) (hL : 0 < as.length) (n : ℕ) :
    (afterSuccesses (Looper.init as io b m I) n).index = n % as.length := by
  induction n with
  | zero =>
    simp [afterSuccesses, Looper.init]
  | succ n ih =>
    rw [afterSuccesses, stepSuccess_index, afterSuccesses_announcements,
      init_announcements, ih]
    exact (Nat.mod_modEq n as.length).add_right 1

/-- Witness for C4: with three announcements, four successful posts
leave the index at `4 mod 3 = 1`. -/
theorem index_after_n_successes_witness :
    0 < msgs3.length ∧
    (afterSuccesses (Looper.init msgs3 false bidS midS 300)
      4).index = 4 % msgs3.length :=
  ⟨by decide,
   index_after_n_successes msgs3 false bidS midS 300
     (by decide) 4⟩

/-- C5: with a non-empty announcement list the invariant
`0 ≤ index < length` holds after construction and is preserved by every
cycle that produces a successor state, whatever the outcomes of the
status check and the post. -/
theorem index_invariant (as : List String) (io : Bool) (b m : String)
    (I : ℚ) (hL : 0 < as.length) :
    (Looper.init as io b m I).index < as.length ∧
    ∀ (s s' : Looper) (env : CycleEnv),
      s.index < s.announcements.length →
      (send_announcement s env).1 = .ok s' →
      s'.announcements = s.announcements ∧
      s'.index < s.announcements.length := by
  constructor
  · exact hL
  · intro s s' env hidx h
    have hpos : 0 < s.announcements.length :=
      lt_of_le_of_lt (Nat.zero_le _) hidx
    have hpost : ∀ w, (post_phase s env w).1 = .ok s' →
        s'.announcements = s.announcements ∧
        s'.index < s.announcements.length := by
      intro w hw
      unfold post_phase at hw
      rcases htp : try_request (post_announce env.postResp) with e | bpost
      · rw [htp] at hw
        simp at hw
      · rw [htp] at hw
        cases bpost with
        | true =>
          simp only [Except.ok.injEq] at hw
          rw [← hw]
          exact ⟨rfl, Nat.mod_lt _ hpos⟩
        | false =>
          simp only [Except.ok.injEq] at hw
          rw [← hw]
          exact ⟨rfl, hidx⟩
    cases hio : s.ignore_offline with
    | false =>
      rw [send_gate_false s env hio] at h
      exact hpost _ h
    | true =>
      rcases hg : try_request (get_online env.streamsResp) with e | bg
      · rw [send_gate_error s env e hio hg] at h
        simp at h
      · cases bg with
        | false =>
          rw [send_gate_offline s env hio hg] at h
          simp only [Except.ok.injEq] at h
          rw [← h]
          exact ⟨rfl, hidx⟩
        | true =>
          rw [send_gate_online s env hio hg] at h
          exact hpost _ h

/-- Witness for C5: the fresh three-message looper satisfies the
invariant, and one concrete successful cycle preserves it. -/
theorem index_invariant_witness :
    (Looper.init msgs3 false bidS midS 300).index < msgs3.length ∧
    ({ looperA false with index := 1 } : Looper).announcements
      = (looperA false).announcements ∧
    ({ looperA false with index := 1 } : Looper).index
      < (looperA false).announcements.length := by
  have h := index_invariant msgs3 false bidS midS 300 (by decide)
  refine ⟨h.1, ?_⟩
  exact h.2 (looperA false) { looperA false with index := 1 } successEnv
    (by decide) (by rfl)

/-- C6: with `ignore_offline` set, when the status check does not
confirm the channel online — the GET timed out, the HTTP status is not
200, or the `data` list is empty — the cycle returns without issuing
the post and without changing the state (in particular the rotation
index). -/
theorem offline_skip (s : Looper) (env : CycleEnv)
    (hio : s.ignore_offline = true)
    (hoff : env.streamsResp = .error .timeout ∨
      (∃ r, env.streamsResp = .ok r ∧ r.status_code ≠ 200) ∨
      (∃ r, env.streamsResp = .ok r ∧ r.body = .dataList 0)) :
    (send_announcement s env).1 = .ok s ∧
    (send_announcement s env).2.postedMessage = none := by
  have hg : try_request (get_online env.streamsResp) = .ok false := by
    rcases hoff with h | ⟨r, hr, hst⟩ | ⟨r, hr, hbody⟩
    · rw [h]
      rfl
    · rw [hr]
      unfold get_online try_request check_status_code
      simp [hst]
    · rw [hr]
      unfold get_online
      cases h200 : check_status_code r.status_code 200 with
      | false => simp [h200, try_request]
      | true => simp [h200, hbody, try_request]
  rw [send_gate_offline s env hio hg]
  exact ⟨rfl, rfl⟩

/-- Witness for C6: concrete offline response (HTTP 200, empty `data`)
with the three-message looper gating on it. -/
theorem offline_skip_witness :
    (send_announcement (looperA true)
      ⟨time0, .ok ⟨200, .dataList 0⟩, .ok 204⟩).1 = .ok (looperA true) ∧
    (send_announcement (looperA true)
      ⟨time0, .ok ⟨200, .dataList 0⟩, .ok 204⟩).2.postedMessage = none :=
  offline_skip (looperA true) ⟨time0, .ok ⟨200, .dataList 0⟩, .ok 204⟩
    (by rfl) (Or.inr (Or.inr ⟨⟨200, .dataList 0⟩, rfl, rfl⟩))

/-- C7: with `ignore_offline` unset, the cycle never queries the
live-status endpoint and always hands the current announcement to the
post request, whatever the environment. -/
theorem no_status_query_when_not_gating (s : Looper) (env : CycleEnv)
    (hio : s.ignore_offline = false) :
    (send_announcement s env).2.queriedStatus = false ∧
    (send_announcement s env).2.postedMessage
      = some s.get_announcement := by
  rw [send_gate_false s env hio, post_phase_trace, hio]
  exact ⟨rfl, rfl⟩

/-- Witness for C7: the ungated three-message looper in an environment
whose status request would time out still posts, without querying. -/
theorem no_status_query_when_not_gating_witness :
    (send_announcement (looperA false)
      ⟨time0, .error .timeout, .ok 204⟩).2.queriedStatus = false ∧
    (send_announcement (looperA false)
      ⟨time0, .error .timeout, .ok 204⟩).2.postedMessage
      = some (looperA false).get_announcement :=
  no_status_query_when_not_gating (looperA false)
    ⟨time0, .error .timeout, .ok 204⟩ (by rfl)

/-- C8: a timeout from either request is caught (`try_request` maps it
to failure), the cycle keeps its state and the loop continues with the
next cycle; any other exception is not caught: it propagates out of
`send_announcement` and terminates `run_for`. -/
theorem timeout_caught_others_propagate (s : Looper) (env : CycleEnv)
    (rest : List CycleEnv) :
    (try_request (.error .timeout) = .ok false) ∧
    (∀ e : Exn, e ≠ .timeout → try_request (.error e) = .error e) ∧
    (s.ignore_offline = true → env.streamsResp = .error .timeout →
      (send_announcement s env).1 = .ok s ∧
      run_for s (env :: rest) = run_for s rest) ∧
    (env.postResp = .error .timeout →
      (send_announcement s env).2.postedMessage.isSome →
      (send_announcement s env).1 = .ok s ∧
      run_for s (env :: rest) = run_for s rest) ∧
    (∀ e : Exn, e ≠ .timeout → s.ignore_offline = true →
      env.streamsResp = .error e →
      (send_announcement s env).1 = .error e ∧
      run_for s (env :: rest) = .error e) ∧
    (∀ e : Exn, e ≠ .timeout → env.postResp = .error e →
      (send_announcement s env).2.postedMessage.isSome →
      (send_announcement s env).1 = .error e ∧
      run_for s (env :: rest) = .error e) := by
  have try_err : ∀ e : Exn, e ≠ .timeout →
      try_request (.error e) = .error e := by
    intro e he
    cases e with
    | timeout => exact absurd rfl he
    | jsonDecodeError => rfl
    | keyError => rfl
    | connectionError => rfl
  have post_err : ∀ e : Exn, env.postResp = .error e →
      try_request (post_announce env.postResp) = try_request (.error e) := by
    intro e he
    rw [he]
    rfl
  have post_some_ok : ∀ res : Except Exn Looper,
      (send_announcement s env).2.postedMessage.isSome →
      (∀ w, (post_phase s env w).1 = res) →
      (send_announcement s env).1 = res := by
    intro res hsome hpp
    cases hio : s.ignore_offline with
    | false =>
      rw [send_gate_false s env hio]
      exact hpp _
    | true =>
      rcases hg : try_request (get_online env.streamsResp) with e | bg
      · rw [send_gate_error s env e hio hg] at hsome ⊢
        simp at hsome
      · cases bg with
        | false =>
          rw [send_gate_offline s env hio hg] at hsome ⊢
          simp at hsome
        | true =>
          rw [send_gate_online s env hio hg]
          exact hpp _
  refine ⟨rfl, try_err, ?_, ?_, ?_, ?_⟩
  · intro hio hto
    have hg : try_request (get_online env.streamsResp) = .ok false := by
      rw [hto]
      rfl
    have h1 : (send_announcement s env).1 = .ok s := by
      rw [send_gate_offline s env hio hg]
    exact ⟨h1, run_for_cons_ok s s env rest h1⟩
  · intro hto hsome
    have h1 : (send_announcement s env).1 = .ok s := by
      refine post_some_ok _ hsome ?_
      intro w
      rw [post_phase_failure s env w ?_]
      rw [post_err .timeout hto]
      rfl
    exact ⟨h1, run_for_cons_ok s s env rest h1⟩
  · intro e he hio hget
    have hg : try_request (get_online env.streamsResp) = .error e := by
      rw [hget]
      show try_request (.error e) = .error e
      exact try_err e he
    have h1 : (send_announcement s env).1 = .error e := by
      rw [send_gate_error s env e hio hg]
    exact ⟨h1, run_for_cons_error s env e rest h1⟩
  · intro e he hpo hsome
    have h1 : (send_announcement s env).1 = .error e := by
      refine post_some_ok _ hsome ?_
      intro w
      rw [post_phase_error s env w e ?_]
      rw [post_err e hpo]
      exact try_err e he
    exact ⟨h1, run_for_cons_error s env e rest h1⟩

/-- Witness for C8: a status-check timeout is skipped and the loop goes
on, while a connection error on the post propagates and ends the run. -/
theorem timeout_caught_others_propagate_witness :
    ((send_announcement (looperA true)
        ⟨time0, .error .timeout, .ok 204⟩).1 = .ok (looperA true) ∧
      run_for (looperA true) (⟨time0, .error .timeout, .ok 204⟩ :: [])
        = run_for (looperA true) []) ∧
    ((send_announcement (looperA false)
        ⟨time0, .ok onlineResp, .error .connectionError⟩).1
        = .error .connectionError ∧
      run_for (looperA false)
        (⟨time0, .ok onlineResp, .error .connectionError⟩ :: [])
        = .error .connectionError) :=
  ⟨(timeout_caught_others_propagate (looperA true)
      ⟨time0, .error .timeout, .ok 204⟩ []).2.2.1 (by rfl) (by rfl),
   (timeout_caught_others_propagate (looperA false)
      ⟨time0, .ok onlineResp, .error .connectionError⟩
      []).2.2.2.2.2 .connectionError (by decide) (by rfl) (by rfl)⟩

/-- C10: if the status check answers HTTP 200 but its body is not JSON
with a `data` key, the raised exception is not a timeout, is not
caught, and propagates out of the cycle and out of the loop, instead of
the cycle being treated as an offline skip. -/
theorem bad_status_body_propagates (s : Looper) (env : CycleEnv)
    (rest : List CycleEnv) (r : StreamsResponse)
    (hio : s.ignore_offline = true) (hr : env.streamsResp = .ok r)
    (h200 : r.status_code = 200)
    (hbody : r.body = .notJson ∨ r.body = .missingData) :
    ∃ e : Exn, e ≠ .timeout ∧
      (send_announcement s env).1 = .error e ∧
      run_for s (env :: rest) = .error e := by
  have hget : ∃ e : Exn, e ≠ .timeout ∧
      get_online env.streamsResp = .error e := by
    rcases hbody with hb | hb
    · refine ⟨.jsonDecodeError, by decide, ?_⟩
      rw [hr]
      unfold get_online check_status_code
      simp [h200, hb]
    · refine ⟨.keyError, by decide, ?_⟩
      rw [hr]
      unfold get_online check_status_code
      simp [h200, hb]
  obtain ⟨e, he, hge⟩ := hget
  have htr : try_request (get_online env.streamsResp) = .error e := by
    rw [hge]
    cases e with
    | timeout => exact absurd rfl he
    | jsonDecodeError => rfl
    | keyError => rfl
    | connectionError => rfl
  have h1 : (send_announcement s env).1 = .error e := by
    rw [send_gate_error s env e hio htr]
  exact ⟨e, he, h1, run_for_cons_error s env e rest h1⟩

/-- Witness for C10: an HTTP-200 response whose body is not JSON makes
the gated cycle propagate an uncaught exception. -/
theorem bad_status_body_propagates_witness :
    ∃ e : Exn, e ≠ .timeout ∧
      (send_announcement (looperA true)
        ⟨time0, .ok ⟨200, .notJson⟩, .ok 204⟩).1 = .error e ∧
      run_for (looperA true) (⟨time0, .ok ⟨200, .notJson⟩, .ok 204⟩ :: [])
        = .error e :=
  bad_status_body_propagates (looperA true)
    ⟨time0, .ok ⟨200, .notJson⟩, .ok 204⟩ [] ⟨200, .notJson⟩
    (by rfl) (by rfl) (by rfl) (Or.inl rfl)

end LocalGremBot
